import Mathlib

/-!
Shallow embedding of `shoutcast_api/stations.py` (SHOUTcast Radio Directory
client): response normalization and endpoint construction, with the external
transport collaborator (`shoutcast_request`) modelled as an explicit record
of functions, and the parts of the repository that are not in the sources
(`models.py`, `utils.py`) modelled from the specification.
-/

namespace ShoutcastApi

/-- A deserialized response body: the generic nested mapping/sequence
structure that the transport collaborator hands to the normalizer
(Python dicts, lists, strings, ints and None). -/
inductive JValue where
  | null : JValue
  | str : String → JValue
  | int : Int → JValue
  | list : List JValue → JValue
  | obj : List (String × JValue) → JValue
deriving Repr

/-- Errors surfaced by the embedded Python code: `attributeError` models the
`AttributeError` raised by calling `.get` on a non-dict (e.g. `None`), and
`exception msg` models `raise Exception(msg)`. -/
inductive PyErr where
  | attributeError : PyErr
  | exception : String → PyErr
deriving Repr, DecidableEq

/-- Look up a key in an association list of object fields (first match). -/
def lookupField (fs : List (String × JValue)) (key : String) : Option JValue :=
  match fs with
  | [] => none
  | (k, v) :: rest => if k = key then some v else lookupField rest key

/-- Python `x.get(key)` where `x` is expected to be a dict: returns the value
(`None` if the key is missing), and raises `AttributeError` when `x` is not a
dict (in particular when `x` is `None`). -/
def dictGet (v : JValue) (key : String) : Except PyErr JValue :=
  match v with
  | .obj fs =>
    match lookupField fs key with
    | some x => .ok x
    | none => .ok .null
  | _ => .error .attributeError

/-- Python truthiness of a deserialized value: `None`, `""`, `0`, `[]` and
`{}` are falsy, everything else is truthy. -/
def JValue.truthy : JValue → Bool
  | .null => false
  | .str s => !(s.isEmpty)
  | .int n => n != 0
  | .list xs => !(xs.isEmpty)
  | .obj fs => !(fs.isEmpty)

/-- Python `isinstance(v, list)`. -/
def JValue.isList : JValue → Bool
  | .list _ => true
  | _ => false

/-- A canonical (normalized) raw record: field name to value. -/
def Record := List (String × JValue)

instance : Repr Record := inferInstanceAs (Repr (List (String × JValue)))

/-- Modelled from the spec: `models.py` is not under `src/`. A `Station` is a
single radio station record, immutable once constructed from the
origin-normalized raw record handed to its constructor. -/
structure Station where
  fields : Record
deriving Repr

/-- Modelled from the spec: `models.py` is not under `src/`. A `StationList`
wraps a tunein base-path value and an ordered sequence of `Station`. -/
structure StationList where
  tunein : String
  stations : List Station
deriving Repr

/-- Drop an attribute marker from an XML-derived field name. -/
def stripAttrMark (k : String) : String :=
  match k.toList with
  | c :: rest => if c == '@' then String.mk rest else k
  | [] => k

/-- Modelled from the spec: `utils.py` is not under `src/`. XML-origin field
normalization: XML-derived mappings carry attribute-marked field names
(e.g. a leading `@`); this maps each field name to the canonical attribute
name by removing the marker. Non-mapping records normalize to no fields. -/
def station_xml_strip (r : JValue) : Record :=
  match r with
  | .obj fs => fs.map (fun p => (stripAttrMark p.1, p.2))
  | _ => []

/-- Modelled from the spec: `utils.py` is not under `src/`. JSON-origin field
normalization: JSON-derived mappings already carry the plain canonical field
names, so fields pass through unchanged. Non-mapping records normalize to no
fields. -/
def station_json_strip (r : JValue) : Record :=
  match r with
  | .obj fs => fs
  | _ => []

/-- Modelled from the spec: `utils.py` is not under `src/`. `_build_url`
turns the optional limit (an offset+count pair) and the supplied keyword
filters into a query-string suffix: `offset=<X>&limit=<Y>` when the limit is
provided, then `<key>=<value>` for every keyword whose value is present and
non-empty; keywords with absent/empty values are omitted entirely. -/
def _build_url (limit : Option (Int × Int)) (kwargs : List (String × Option String)) : String :=
  (match limit with
   | some (x, y) => "&offset=" ++ toString x ++ "&limit=" ++ toString y
   | none => "") ++
  String.join (kwargs.filterMap (fun p =>
    match p.2 with
    | some v => if v.isEmpty then none else some ("&" ++ p.1 ++ "=" ++ v)
    | none => none))

/-- The external transport collaborator (`shoutcast_request`): an
XML-returning and a JSON-returning `call_api` variant, both deserializing the
body into a generic mapping, plus the process-wide tunein value `tuneins`
populated from the directory root endpoint. -/
structure Transport where
  call_api_xml : String → Except PyErr JValue
  call_api_json : String → Except PyErr JValue
  tuneins : String

/-- Characters stripped by Python `str.strip()` with no argument. -/
def isPyWhitespace (c : Char) : Bool :=
  c == ' ' || c == '\t' || c == '\n' || c == '\r' || c == '\x0b' || c == '\x0c'

/-- Python `s.strip()`: remove leading and trailing whitespace. -/
def pyStrip (s : String) : String :=
  String.mk (((s.toList.dropWhile isPyWhitespace).reverse.dropWhile isPyWhitespace).reverse)

/-- Python `s.replace(' ', '+')`: replace every space character by `+`. -/
def pyReplaceSpace (s : String) : String :=
  String.mk (s.toList.map (fun c => if c == ' ' then '+' else c))

/-- Embedding of `_handle_url_action_xml` (`stations.py`, lines 8–23). -/
def _handle_url_action_xml (t : Transport) (endpoint : String) : Except PyErr StationList := do
  let response ← t.call_api_xml endpoint
  let api_station_list ← dictGet response "stationlist"
  let probe ← dictGet api_station_list "station"
  if !probe.truthy then
    return { tunein := t.tuneins, stations := [] }
  let api_stations ← dictGet api_station_list "station"
  if !api_stations.isList then
    return { tunein := t.tuneins, stations := [Station.mk (station_xml_strip api_stations)] }
  match api_stations with
  | .list items =>
    return { tunein := t.tuneins, stations := items.map (fun item => Station.mk (station_xml_strip item)) }
  | _ => return { tunein := t.tuneins, stations := [] }

/-- Embedding of `_handle_url_action_json` (`stations.py`, lines 26–41). -/
def _handle_url_action_json (t : Transport) (endpoint : String) : Except PyErr StationList := do
  let response ← t.call_api_json endpoint
  let api_station_list ← dictGet response "stationlist"
  let probe ← dictGet api_station_list "station"
  if !probe.truthy then
    return { tunein := t.tuneins, stations := [] }
  let api_stations ← dictGet api_station_list "station"
  if !api_stations.isList then
    return { tunein := t.tuneins, stations := [Station.mk (station_json_strip api_stations)] }
  match api_stations with
  | .list items =>
    return { tunein := t.tuneins, stations := items.map (fun item => Station.mk (station_json_strip item)) }
  | _ => return { tunein := t.tuneins, stations := [] }

/-- Embedding of `get_top_500` (`stations.py`, lines 44–59). -/
def get_top_500 (t : Transport) (k : String) (limit : Option (Int × Int))
    (kwargs : List (String × Option String)) : Except PyErr StationList :=
  let endpoint := "/legacy/Top500?k=" ++ k ++ _build_url limit kwargs
  _handle_url_action_xml t endpoint

/-- Embedding of `get_stations_keywords` (`stations.py`, lines 62–80). -/
def get_stations_keywords (t : Transport) (k : String) (search : String)
    (limit : Option (Int × Int)) (kwargs : List (String × Option String)) :
    Except PyErr StationList :=
  if search.isEmpty then
    .error (.exception "Search query is required")
  else
    let endpoint := "/legacy/stationsearch?k=" ++ k ++ "&search="
      ++ pyStrip (pyReplaceSpace search) ++ _build_url limit kwargs
    _handle_url_action_xml t endpoint

/-- Embedding of `get_stations_by_genre` (`stations.py`, lines 83–103). -/
def get_stations_by_genre (t : Transport) (k : String) (genre : String)
    (limit : Option (Int × Int)) (kwargs : List (String × Option String)) :
    Except PyErr StationList :=
  if genre.isEmpty then
    .error (.exception "genre is required")
  else
    let endpoint := "/legacy/stationsearch?k=" ++ k ++ "&search="
      ++ pyStrip (pyReplaceSpace genre) ++ _build_url limit kwargs
    _handle_url_action_xml t endpoint

/-- Embedding of `get_stations_by_now_playing` (`stations.py`, lines 106–126). -/
def get_stations_by_now_playing (t : Transport) (k : String) (ct : String)
    (limit : Option (Int × Int)) (kwargs : List (String × Option String)) :
    Except PyErr StationList :=
  if ct.isEmpty then
    .error (.exception "genre is required")
  else
    let endpoint := "/station/nowplaying?k=" ++ k ++ "&ct="
      ++ pyStrip (pyReplaceSpace ct) ++ "&f=json" ++ _build_url limit kwargs
    _handle_url_action_json t endpoint

/-- Python truthiness of the optional integer arguments `br` and `genre_id`:
absent (`None`) and `0` are falsy. -/
def optIntFalsy : Option Int → Bool
  | none => true
  | some n => n == 0

/-- The declared default value of the `br` parameter of
`get_stations_bitrate_or_genre_id` (`stations.py`, line 129: `br: int = 128`). -/
def default_br : Option Int := some 128

/-- The declared default value of the `genre_id` parameter of
`get_stations_bitrate_or_genre_id` (`stations.py`, line 130). -/
def default_genre_id : Option Int := none

/-- Embedding of `get_stations_bitrate_or_genre_id` (`stations.py`,
lines 129–149); the Python defaults `br=128`, `genre_id=None` are recorded as
`default_br` and `default_genre_id`. -/
def get_stations_bitrate_or_genre_id (t : Transport) (k : String)
    (br : Option Int) (genre_id : Option Int) (limit : Option (Int × Int))
    (kwargs : List (String × Option String)) : Except PyErr StationList :=
  if optIntFalsy br && optIntFalsy genre_id then
    .error (.exception "genre_id or br is required")
  else
    let endpoint := "/station/advancedsearch?k=" ++ k ++ "&f=json"
      ++ _build_url limit
          (("br", br.map toString) :: ("genre_id", genre_id.map toString) :: kwargs)
    _handle_url_action_json t endpoint

/-- Embedding of `get_random_station` (`stations.py`, lines 152–169). -/
def get_random_station (t : Transport) (k : String) (limit : Option (Int × Int))
    (kwargs : List (String × Option String)) : Except PyErr StationList :=
  let endpoint := "/station/randomstations?k=" ++ k ++ "&f=json" ++ _build_url limit kwargs
  _handle_url_action_json t endpoint

/-- A transport collaborator whose two call variants both return the given
deserialized body, with the given tunein configuration. -/
def constTransport (tune : String) (response : JValue) : Transport where
  call_api_xml := fun _ => .ok response
  call_api_json := fun _ => .ok response
  tuneins := tune

/-- A transport collaborator that fails every call, echoing the requested
endpoint and the content-negotiation variant used in the error message; it
makes the endpoint built by each endpoint function observable. -/
def probeTransport (tune : String) : Transport where
  call_api_xml := fun e => .error (.exception ("XML " ++ e))
  call_api_json := fun e => .error (.exception ("JSON " ++ e))
  tuneins := tune

/-- The raw station records carried by a response body: the station
collection under `stationlist`, read as no records when absent, one record
when it is not a sequence, and the records in order when it is a sequence. -/
def stationRecords (response : JValue) : List JValue :=
  match response with
  | .obj fs =>
    match lookupField fs "stationlist" with
    | some (.obj sfs) =>
      match lookupField sfs "station" with
      | some (.list rs) => rs
      | some r => [r]
      | none => []
    | _ => []
  | _ => []

end ShoutcastApi

namespace ShoutcastApi

/-- C1: a response whose `stationlist` entry carries an absent or
empty/falsy station collection normalizes, on both the XML and the JSON
path, to a `StationList` with zero stations whose tunein field is the
process-wide configured tunein value. -/
theorem c1_falsy_collection_yields_empty_stationlist
    (t : Transport) (e₁ e₂ : String) (fs sfs : List (String × JValue)) (st : JValue)
    (hx : t.call_api_xml e₁ = .ok (.obj fs))
    (hj : t.call_api_json e₂ = .ok (.obj fs))
    (hsl : lookupField fs "stationlist" = some (.obj sfs))
    (hst : dictGet (.obj sfs) "station" = .ok st)
    (hfalsy : st.truthy = false) :
    _handle_url_action_xml t e₁ = .ok { tunein := t.tuneins, stations := [] } ∧
    _handle_url_action_json t e₂ = .ok { tunein := t.tuneins, stations := [] } := by
  have h1 : dictGet (.obj fs) "stationlist" = .ok (.obj sfs) := by
    simp [dictGet, hsl]
  constructor <;>
    simp [_handle_url_action_xml, _handle_url_action_json, hx, hj, h1, hst, hfalsy,
      Bind.bind, Except.bind, Pure.pure, Except.pure]

/-- Witness for C1: the concrete end-to-end scenario where the transport
returns a body whose `stationlist` mapping has no station collection. -/
theorem c1_witness :
    _handle_url_action_xml (constTransport "T" (.obj [("stationlist", .obj [])])) "E"
      = .ok { tunein := "T", stations := [] } ∧
    _handle_url_action_json (constTransport "T" (.obj [("stationlist", .obj [])])) "E"
      = .ok { tunein := "T", stations := [] } :=
  c1_falsy_collection_yields_empty_stationlist
    (constTransport "T" (.obj [("stationlist", .obj [])])) "E" "E"
    [("stationlist", .obj [])] [] .null rfl rfl rfl rfl rfl

/-- C2: a response whose station collection under `stationlist` is a single
truthy record that is not a sequence normalizes, on both paths, to a
`StationList` with exactly one `Station`, built by applying the
origin-specific field normalization to that record. -/
theorem c2_single_record_yields_one_station
    (t : Transport) (e₁ e₂ : String) (fs sfs : List (String × JValue)) (r : JValue)
    (hx : t.call_api_xml e₁ = .ok (.obj fs))
    (hj : t.call_api_json e₂ = .ok (.obj fs))
    (hsl : lookupField fs "stationlist" = some (.obj sfs))
    (hst : dictGet (.obj sfs) "station" = .ok r)
    (htr : r.truthy = true)
    (hnl : r.isList = false) :
    _handle_url_action_xml t e₁
      = .ok { tunein := t.tuneins, stations := [Station.mk (station_xml_strip r)] } ∧
    _handle_url_action_json t e₂
      = .ok { tunein := t.tuneins, stations := [Station.mk (station_json_strip r)] } := by
  have h1 : dictGet (.obj fs) "stationlist" = .ok (.obj sfs) := by
    simp [dictGet, hsl]
  constructor <;>
    simp [_handle_url_action_xml, _handle_url_action_json, hx, hj, h1, hst, htr, hnl,
      Bind.bind, Except.bind, Pure.pure, Except.pure]

/-- Witness for C2: the concrete end-to-end scenario where the transport
returns a single, unwrapped station record. -/
theorem c2_witness :
    _handle_url_action_xml
        (constTransport "T" (.obj [("stationlist", .obj [("station",
          .obj [("@id", .int 1), ("@name", .str "X")])])])) "E"
      = .ok { tunein := "T",
              stations := [Station.mk [("id", .int 1), ("name", .str "X")]] } ∧
    _handle_url_action_json
        (constTransport "T" (.obj [("stationlist", .obj [("station",
          .obj [("@id", .int 1), ("@name", .str "X")])])])) "E"
      = .ok { tunein := "T",
              stations := [Station.mk [("@id", .int 1), ("@name", .str "X")]] } :=
  c2_single_record_yields_one_station
    (constTransport "T" (.obj [("stationlist", .obj [("station",
      .obj [("@id", .int 1), ("@name", .str "X")])])])) "E" "E"
    [("stationlist", .obj [("station", .obj [("@id", .int 1), ("@name", .str "X")])])]
    [("station", .obj [("@id", .int 1), ("@name", .str "X")])]
    (.obj [("@id", .int 1), ("@name", .str "X")]) rfl rfl rfl rfl rfl rfl

/-- C3: a response whose station collection under `stationlist` is a
non-empty sequence of records normalizes, on both paths, to a `StationList`
with exactly one `Station` per record, in the same order, each built from
the corresponding record by the origin-specific field normalization. -/
theorem c3_sequence_yields_stations_in_order
    (t : Transport) (e₁ e₂ : String) (fs sfs : List (String × JValue)) (rs : List JValue)
    (hx : t.call_api_xml e₁ = .ok (.obj fs))
    (hj : t.call_api_json e₂ = .ok (.obj fs))
    (hsl : lookupField fs "stationlist" = some (.obj sfs))
    (hst : dictGet (.obj sfs) "station" = .ok (.list rs))
    (hne : rs ≠ []) :
    _handle_url_action_xml t e₁
      = .ok { tunein := t.tuneins,
              stations := rs.map (fun r => Station.mk (station_xml_strip r)) } ∧
    _handle_url_action_json t e₂
      = .ok { tunein := t.tuneins,
              stations := rs.map (fun r => Station.mk (station_json_strip r)) } := by
  have h1 : dictGet (.obj fs) "stationlist" = .ok (.obj sfs) := by
    simp [dictGet, hsl]
  cases rs with
  | nil => exact absurd rfl hne
  | cons a as =>
    constructor <;>
      simp [_handle_url_action_xml, _handle_url_action_json, hx, hj, h1, hst,
        JValue.truthy, JValue.isList, Bind.bind, Except.bind, Pure.pure, Except.pure]

/-- Witness for C3: the concrete end-to-end scenario where the transport
returns a two-record station sequence; the result has two stations, in
order. -/
theorem c3_witness :
    _handle_url_action_xml
        (constTransport "T" (.obj [("stationlist", .obj [("station",
          .list [.obj [("@id", .int 1)], .obj [("@id", .int 2)]])])])) "E"
      = .ok { tunein := "T",
              stations := [Station.mk [("id", .int 1)], Station.mk [("id", .int 2)]] } ∧
    _handle_url_action_json
        (constTransport "T" (.obj [("stationlist", .obj [("station",
          .list [.obj [("@id", .int 1)], .obj [("@id", .int 2)]])])])) "E"
      = .ok { tunein := "T",
              stations := [Station.mk [("@id", .int 1)], Station.mk [("@id", .int 2)]] } :=
  c3_sequence_yields_stations_in_order
    (constTransport "T" (.obj [("stationlist", .obj [("station",
      .list [.obj [("@id", .int 1)], .obj [("@id", .int 2)]])])])) "E" "E"
    [("stationlist", .obj [("station", .list [.obj [("@id", .int 1)], .obj [("@id", .int 2)]])])]
    [("station", .list [.obj [("@id", .int 1)], .obj [("@id", .int 2)]])]
    [.obj [("@id", .int 1)], .obj [("@id", .int 2)]] rfl rfl rfl rfl (by simp)

/-- The shared post-transport normalization: what either normalizer entry
point computes from the deserialized body, parameterized by the per-record
field-normalization function. Used to relate the two entry points. -/
def normalizeWith (strip : JValue → Record) (tune : String) (response : JValue) :
    Except PyErr StationList := do
  let api_station_list ← dictGet response "stationlist"
  let probe ← dictGet api_station_list "station"
  if !probe.truthy then
    return { tunein := tune, stations := [] }
  let api_stations ← dictGet api_station_list "station"
  if !api_stations.isList then
    return { tunein := tune, stations := [Station.mk (strip api_stations)] }
  match api_stations with
  | .list items =>
    return { tunein := tune, stations := items.map (fun item => Station.mk (strip item)) }
  | _ => return { tunein := tune, stations := [] }

/-- When the XML transport call returns a body, the XML normalizer entry
point computes the shared normalization with the XML field mapping. -/
theorem _handle_url_action_xml_norm (t : Transport) (e : String) (resp : JValue)
    (hx : t.call_api_xml e = .ok resp) :
    _handle_url_action_xml t e = normalizeWith station_xml_strip t.tuneins resp := by
  unfold _handle_url_action_xml
  rw [hx]
  rfl

/-- When the JSON transport call returns a body, the JSON normalizer entry
point computes the shared normalization with the JSON field mapping. -/
theorem _handle_url_action_json_norm (t : Transport) (e : String) (resp : JValue)
    (hj : t.call_api_json e = .ok resp) :
    _handle_url_action_json t e = normalizeWith station_json_strip t.tuneins resp := by
  unfold _handle_url_action_json
  rw [hj]
  rfl

/-- The shared normalization depends on the field mapping only through its
values on the raw records carried by the body. -/
theorem normalizeWith_congr (f g : JValue → Record) (tune : String) (resp : JValue)
    (h : ∀ r ∈ stationRecords resp, f r = g r) :
    normalizeWith f tune resp = normalizeWith g tune resp := by
  cases resp with
  | obj fs =>
    cases hsl : lookupField fs "stationlist" with
    | none => simp [normalizeWith, dictGet, hsl, Bind.bind, Except.bind]
    | some v =>
      cases v with
      | obj sfs =>
        cases hst : lookupField sfs "station" with
        | none =>
          simp [normalizeWith, dictGet, hsl, hst, JValue.truthy,
            Bind.bind, Except.bind, Pure.pure, Except.pure]
        | some r =>
          cases r with
          | list rs =>
            cases rs with
            | nil =>
              simp [normalizeWith, dictGet, hsl, hst, JValue.truthy,
                Bind.bind, Except.bind, Pure.pure, Except.pure]
            | cons a as =>
              have hr : ∀ x ∈ (a :: as), f x = g x := by
                intro x hxm
                exact h x (by simp [stationRecords, hsl, hst, hxm])
              have hmap : (a :: as).map (fun item => Station.mk (f item))
                  = (a :: as).map (fun item => Station.mk (g item)) :=
                List.map_congr_left (fun x hxm => by rw [hr x hxm])
              simp only [normalizeWith, dictGet, hsl, hst, JValue.truthy, JValue.isList,
                Bind.bind, Except.bind, Pure.pure, Except.pure, List.isEmpty_cons,
                Bool.not_false, Bool.not_true, if_true, if_false, ite_false, ite_true]
              rw [hmap]
              simp
          | null =>
            simp [normalizeWith, dictGet, hsl, hst, JValue.truthy,
              Bind.bind, Except.bind, Pure.pure, Except.pure]
          | str s =>
            have hr : f (.str s) = g (.str s) := h _ (by simp [stationRecords, hsl, hst])
            simp [normalizeWith, dictGet, hsl, hst, JValue.truthy, JValue.isList, hr,
              Bind.bind, Except.bind, Pure.pure, Except.pure]
          | int n =>
            have hr : f (.int n) = g (.int n) := h _ (by simp [stationRecords, hsl, hst])
            simp [normalizeWith, dictGet, hsl, hst, JValue.truthy, JValue.isList, hr,
              Bind.bind, Except.bind, Pure.pure, Except.pure]
          | obj rfs =>
            have hr : f (.obj rfs) = g (.obj rfs) := h _ (by simp [stationRecords, hsl, hst])
            simp [normalizeWith, dictGet, hsl, hst, JValue.truthy, JValue.isList, hr,
              Bind.bind, Except.bind, Pure.pure, Except.pure]
      | null => simp [normalizeWith, dictGet, hsl, Bind.bind, Except.bind]
      | str s => simp [normalizeWith, dictGet, hsl, Bind.bind, Except.bind]
      | int n => simp [normalizeWith, dictGet, hsl, Bind.bind, Except.bind]
      | list xs => simp [normalizeWith, dictGet, hsl, Bind.bind, Except.bind]
  | null => simp [normalizeWith, dictGet, Bind.bind, Except.bind]
  | str s => simp [normalizeWith, dictGet, Bind.bind, Except.bind]
  | int n => simp [normalizeWith, dictGet, Bind.bind, Except.bind]
  | list xs => simp [normalizeWith, dictGet, Bind.bind, Except.bind]

/-- Matching `ok` results have matching tunein fields. -/
theorem ok_tunein (x sl : StationList)
    (h : (Except.ok x : Except PyErr StationList) = .ok sl) : sl.tunein = x.tunein := by
  injection h with h2
  rw [h2]

/-- Every `ok` outcome of the shared normalization carries the configured
tunein value. -/
theorem normalizeWith_tunein (f : JValue → Record) (tune : String) (resp : JValue)
    (sl : StationList) (h : normalizeWith f tune resp = .ok sl) : sl.tunein = tune := by
  cases resp with
  | obj fs =>
    cases hsl : lookupField fs "stationlist" with
    | none => simp [normalizeWith, dictGet, hsl, Bind.bind, Except.bind] at h
    | some v =>
      cases v with
      | obj sfs =>
        cases hst : lookupField sfs "station" with
        | none =>
          simp [normalizeWith, dictGet, hsl, hst, JValue.truthy,
            Bind.bind, Except.bind, Pure.pure, Except.pure] at h
          first
            | exact ok_tunein _ _ h
            | rw [← h]
        | some r =>
          cases r with
          | list rs =>
            cases rs with
            | nil =>
              simp [normalizeWith, dictGet, hsl, hst, JValue.truthy,
                Bind.bind, Except.bind, Pure.pure, Except.pure] at h
              first
                | exact ok_tunein _ _ h
                | rw [← h]
            | cons a as =>
              simp [normalizeWith, dictGet, hsl, hst, JValue.truthy, JValue.isList,
                Bind.bind, Except.bind, Pure.pure, Except.pure] at h
              first
                | exact ok_tunein _ _ h
                | rw [← h]
          | null =>
            simp [normalizeWith, dictGet, hsl, hst, JValue.truthy,
              Bind.bind, Except.bind, Pure.pure, Except.pure] at h
            first
            | exact ok_tunein _ _ h
            | rw [← h]
          | str s =>
            simp [normalizeWith, dictGet, hsl, hst, JValue.truthy, JValue.isList,
              Bind.bind, Except.bind, Pure.pure, Except.pure] at h
            split at h <;> exact ok_tunein _ _ h
          | int n =>
            simp [normalizeWith, dictGet, hsl, hst, JValue.truthy, JValue.isList,
              Bind.bind, Except.bind, Pure.pure, Except.pure] at h
            split at h <;> exact ok_tunein _ _ h
          | obj rfs =>
            simp [normalizeWith, dictGet, hsl, hst, JValue.truthy, JValue.isList,
              Bind.bind, Except.bind, Pure.pure, Except.pure] at h
            split at h <;> exact ok_tunein _ _ h
      | null => simp [normalizeWith, dictGet, hsl, Bind.bind, Except.bind] at h
      | str s => simp [normalizeWith, dictGet, hsl, Bind.bind, Except.bind] at h
      | int n => simp [normalizeWith, dictGet, hsl, Bind.bind, Except.bind] at h
      | list xs => simp [normalizeWith, dictGet, hsl, Bind.bind, Except.bind] at h
  | null => simp [normalizeWith, dictGet, Bind.bind, Except.bind] at h
  | str s => simp [normalizeWith, dictGet, Bind.bind, Except.bind] at h
  | int n => simp [normalizeWith, dictGet, Bind.bind, Except.bind] at h
  | list xs => simp [normalizeWith, dictGet, Bind.bind, Except.bind] at h

/-- C4: with an empty required text parameter, each of the keyword-search,
genre-search and now-playing endpoint functions raises its required-argument
error (the spec taxonomy's InvalidArgument) synchronously: the result is the
error for every transport collaborator, so no transport call is consulted. -/
theorem c4_empty_required_text_raises (t : Transport) (k : String)
    (limit : Option (Int × Int)) (kwargs : List (String × Option String)) :
    get_stations_keywords t k "" limit kwargs
      = .error (.exception "Search query is required") ∧
    get_stations_by_genre t k "" limit kwargs
      = .error (.exception "genre is required") ∧
    get_stations_by_now_playing t k "" limit kwargs
      = .error (.exception "genre is required") :=
  ⟨rfl, rfl, rfl⟩

/-- C5: the advanced-search endpoint raises its required-argument error for
every transport collaborator exactly when both `br` and `genre_id` are
Python-falsy (absent or zero); called with the declared defaults
(`br = 128`, `genre_id = None`) it does not raise and proceeds straight to
the transport call. -/
theorem c5_bitrate_or_genre_id_guard (k : String) (limit : Option (Int × Int))
    (kwargs : List (String × Option String)) (br genre_id : Option Int) :
    ((∀ t : Transport, get_stations_bitrate_or_genre_id t k br genre_id limit kwargs
        = .error (.exception "genre_id or br is required"))
      ↔ (optIntFalsy br = true ∧ optIntFalsy genre_id = true)) ∧
    (∀ t : Transport,
      get_stations_bitrate_or_genre_id t k default_br default_genre_id limit kwargs
        = _handle_url_action_json t ("/station/advancedsearch?k=" ++ k ++ "&f=json"
            ++ _build_url limit (("br", some "128") :: ("genre_id", none) :: kwargs))) := by
  constructor
  · constructor
    · intro h
      cases hb : optIntFalsy br with
      | true =>
        cases hg : optIntFalsy genre_id with
        | true => exact ⟨rfl, rfl⟩
        | false =>
          have ht := h (constTransport "" (.obj [("stationlist", .obj [])]))
          have hok : ∀ ep, _handle_url_action_json
              (constTransport "" (.obj [("stationlist", .obj [])])) ep
              = .ok { tunein := "", stations := [] } := fun _ => rfl
          simp [get_stations_bitrate_or_genre_id, hb, hg, hok] at ht
      | false =>
        have ht := h (constTransport "" (.obj [("stationlist", .obj [])]))
        have hok : ∀ ep, _handle_url_action_json
            (constTransport "" (.obj [("stationlist", .obj [])])) ep
            = .ok { tunein := "", stations := [] } := fun _ => rfl
        simp [get_stations_bitrate_or_genre_id, hb, hok] at ht
    · rintro ⟨hb, hg⟩ t
      simp [get_stations_bitrate_or_genre_id, hb, hg]
  · intro t
    rfl

/-- Witness for C5: with `br = None` and `genre_id = None` the advanced
search raises the required-argument error regardless of the transport, and
the Python defaults are not both falsy (`128` is truthy). -/
theorem c5_witness :
    ((∀ t : Transport, get_stations_bitrate_or_genre_id t "K" none none none []
        = .error (.exception "genre_id or br is required"))
      ↔ (optIntFalsy none = true ∧ optIntFalsy none = true)) ∧
    (∀ t : Transport,
      get_stations_bitrate_or_genre_id t "K" default_br default_genre_id none []
        = _handle_url_action_json t ("/station/advancedsearch?k=" ++ "K" ++ "&f=json"
            ++ _build_url none (("br", some "128") :: ("genre_id", none) :: []))) :=
  c5_bitrate_or_genre_id_guard "K" none [] none none

/-- Counterexample to C6: for the keyword query `" a"` the code computes
`" a".replace(' ', '+').strip()`, i.e. it replaces the leading space with
`+` first and only then strips, so the embedded value is `"+a"` — the
leading space does appear (as `+`), and the embedded endpoint is not the
one the claim predicts (`search=a`). -/
theorem c6_counterexample :
    get_stations_keywords (probeTransport "") "K" " a" none []
      = .error (.exception ("XML " ++ ("/legacy/stationsearch?k=" ++ "K" ++ "&search="
          ++ "+a" ++ ""))) ∧
    ¬ get_stations_keywords (probeTransport "") "K" " a" none []
      = .error (.exception ("XML " ++ ("/legacy/stationsearch?k=" ++ "K" ++ "&search="
          ++ "a" ++ ""))) := by
  refine ⟨rfl, fun h => ?_⟩
  rw [show get_stations_keywords (probeTransport "") "K" " a" none []
      = .error (.exception ("XML " ++ ("/legacy/stationsearch?k=" ++ "K" ++ "&search="
          ++ "+a" ++ ""))) from rfl] at h
  injection h with h1
  injection h1 with h2
  exact absurd h2 (by decide)

/-- C6 as amended: each free-text query value is embedded as
`value.replace(' ', '+').strip()` — spaces (leading and trailing ones
included) are first replaced by `+`, and only then is leading/trailing
whitespace stripped; since `+` is not whitespace, leading and trailing
spaces of the original value appear as `+` in the embedded value. -/
theorem c6_amended_replace_then_strip (tune k q : String) (limit : Option (Int × Int))
    (kwargs : List (String × Option String)) (hq : q.isEmpty = false) :
    get_stations_keywords (probeTransport tune) k q limit kwargs
      = .error (.exception ("XML " ++ ("/legacy/stationsearch?k=" ++ k ++ "&search="
          ++ pyStrip (pyReplaceSpace q) ++ _build_url limit kwargs))) ∧
    get_stations_by_genre (probeTransport tune) k q limit kwargs
      = .error (.exception ("XML " ++ ("/legacy/stationsearch?k=" ++ k ++ "&search="
          ++ pyStrip (pyReplaceSpace q) ++ _build_url limit kwargs))) ∧
    get_stations_by_now_playing (probeTransport tune) k q limit kwargs
      = .error (.exception ("JSON " ++ ("/station/nowplaying?k=" ++ k ++ "&ct="
          ++ pyStrip (pyReplaceSpace q) ++ "&f=json" ++ _build_url limit kwargs))) := by
  refine ⟨?_, ?_, ?_⟩ <;>
    simp [get_stations_keywords, get_stations_by_genre, get_stations_by_now_playing,
      _handle_url_action_xml, _handle_url_action_json, probeTransport, hq,
      Bind.bind, Except.bind]

/-- Witness for the amended C6: the query `" jazz fm "` is embedded as
`"+jazz+fm+"`. -/
theorem c6_amended_witness :
    (get_stations_keywords (probeTransport "") "K" " jazz fm " none []
      = .error (.exception ("XML " ++ ("/legacy/stationsearch?k=" ++ "K" ++ "&search="
          ++ pyStrip (pyReplaceSpace " jazz fm ") ++ _build_url none []))) ∧
    get_stations_by_genre (probeTransport "") "K" " jazz fm " none []
      = .error (.exception ("XML " ++ ("/legacy/stationsearch?k=" ++ "K" ++ "&search="
          ++ pyStrip (pyReplaceSpace " jazz fm ") ++ _build_url none []))) ∧
    get_stations_by_now_playing (probeTransport "") "K" " jazz fm " none []
      = .error (.exception ("JSON " ++ ("/station/nowplaying?k=" ++ "K" ++ "&ct="
          ++ pyStrip (pyReplaceSpace " jazz fm ") ++ "&f=json" ++ _build_url none [])))) ∧
    pyStrip (pyReplaceSpace " jazz fm ") = "+jazz+fm+" :=
  ⟨c6_amended_replace_then_strip "" "K" " jazz fm " none [] rfl, rfl⟩

/-- C7: with the transport collaborator instrumented to echo the requested
endpoint and the content-negotiation variant, each endpoint function builds
exactly the conventions-table path with the dev key embedded as the `k`
query parameter, and uses XML for top-500, keyword search and genre search,
and JSON (with `f=json` in the path) for now-playing, advanced search and
random stations. -/
theorem c7_endpoint_paths_and_formats (tune k q : String) (limit : Option (Int × Int))
    (kwargs : List (String × Option String)) (br genre_id : Option Int)
    (hq : q.isEmpty = false)
    (hbg : (optIntFalsy br && optIntFalsy genre_id) = false) :
    get_top_500 (probeTransport tune) k limit kwargs
      = .error (.exception ("XML " ++ ("/legacy/Top500?k=" ++ k
          ++ _build_url limit kwargs))) ∧
    get_stations_keywords (probeTransport tune) k q limit kwargs
      = .error (.exception ("XML " ++ ("/legacy/stationsearch?k=" ++ k ++ "&search="
          ++ pyStrip (pyReplaceSpace q) ++ _build_url limit kwargs))) ∧
    get_stations_by_genre (probeTransport tune) k q limit kwargs
      = .error (.exception ("XML " ++ ("/legacy/stationsearch?k=" ++ k ++ "&search="
          ++ pyStrip (pyReplaceSpace q) ++ _build_url limit kwargs))) ∧
    get_stations_by_now_playing (probeTransport tune) k q limit kwargs
      = .error (.exception ("JSON " ++ ("/station/nowplaying?k=" ++ k ++ "&ct="
          ++ pyStrip (pyReplaceSpace q) ++ "&f=json" ++ _build_url limit kwargs))) ∧
    get_stations_bitrate_or_genre_id (probeTransport tune) k br genre_id limit kwargs
      = .error (.exception ("JSON " ++ ("/station/advancedsearch?k=" ++ k ++ "&f=json"
          ++ _build_url limit (("br", br.map toString)
              :: ("genre_id", genre_id.map toString) :: kwargs)))) ∧
    get_random_station (probeTransport tune) k limit kwargs
      = .error (.exception ("JSON " ++ ("/station/randomstations?k=" ++ k ++ "&f=json"
          ++ _build_url limit kwargs))) := by
  refine ⟨rfl, ?_, ?_, ?_, ?_, rfl⟩ <;>
    simp [get_stations_keywords, get_stations_by_genre, get_stations_by_now_playing,
      get_stations_bitrate_or_genre_id, _handle_url_action_xml, _handle_url_action_json,
      probeTransport, hq, hbg, Bind.bind, Except.bind]

/-- Witness for C7: the six endpoint paths at a concrete dev key, query,
limit and bitrate/genre-id values. -/
theorem c7_witness :
    get_top_500 (probeTransport "T") "K" none []
      = .error (.exception ("XML " ++ ("/legacy/Top500?k=" ++ "K"
          ++ _build_url none []))) ∧
    get_stations_keywords (probeTransport "T") "K" "q" none []
      = .error (.exception ("XML " ++ ("/legacy/stationsearch?k=" ++ "K" ++ "&search="
          ++ pyStrip (pyReplaceSpace "q") ++ _build_url none []))) ∧
    get_stations_by_genre (probeTransport "T") "K" "q" none []
      = .error (.exception ("XML " ++ ("/legacy/stationsearch?k=" ++ "K" ++ "&search="
          ++ pyStrip (pyReplaceSpace "q") ++ _build_url none []))) ∧
    get_stations_by_now_playing (probeTransport "T") "K" "q" none []
      = .error (.exception ("JSON " ++ ("/station/nowplaying?k=" ++ "K" ++ "&ct="
          ++ pyStrip (pyReplaceSpace "q") ++ "&f=json" ++ _build_url none []))) ∧
    get_stations_bitrate_or_genre_id (probeTransport "T") "K" (some 128) none none []
      = .error (.exception ("JSON " ++ ("/station/advancedsearch?k=" ++ "K" ++ "&f=json"
          ++ _build_url none (("br", (some (128 : Int)).map toString)
              :: ("genre_id", (none : Option Int).map toString) :: [])))) ∧
    get_random_station (probeTransport "T") "K" none []
      = .error (.exception ("JSON " ++ ("/station/randomstations?k=" ++ "K" ++ "&f=json"
          ++ _build_url none []))) :=
  c7_endpoint_paths_and_formats "T" "K" "q" none [] (some 128) none rfl rfl

/-- C8: the two normalizer entry points implement the same shape-dispatch
algorithm and differ only in the per-record field mapping applied: for every
body served to both, if the XML and JSON field mappings agree on every
record carried by the body, the two entry points return equal results. -/
theorem c8_normalizers_differ_only_in_field_mapping (t : Transport) (e₁ e₂ : String)
    (resp : JValue)
    (hx : t.call_api_xml e₁ = .ok resp)
    (hj : t.call_api_json e₂ = .ok resp)
    (hagree : ∀ r ∈ stationRecords resp, station_xml_strip r = station_json_strip r) :
    _handle_url_action_xml t e₁ = _handle_url_action_json t e₂ := by
  rw [_handle_url_action_xml_norm t e₁ resp hx, _handle_url_action_json_norm t e₂ resp hj]
  exact normalizeWith_congr _ _ _ _ hagree

/-- Witness for C8: on a body whose single record has no attribute-marked
field names, the two field mappings agree and the two entry points return
the same result. -/
theorem c8_witness :
    _handle_url_action_xml
        (constTransport "T" (.obj [("stationlist", .obj [("station",
          .list [.obj [("id", .int 1)]])])])) "E"
      = _handle_url_action_json
        (constTransport "T" (.obj [("stationlist", .obj [("station",
          .list [.obj [("id", .int 1)]])])])) "E" :=
  c8_normalizers_differ_only_in_field_mapping
    (constTransport "T" (.obj [("stationlist", .obj [("station",
      .list [.obj [("id", .int 1)]])])])) "E" "E"
    (.obj [("stationlist", .obj [("station", .list [.obj [("id", .int 1)]])])])
    rfl rfl
    (by
      intro r hr
      simp [stationRecords, lookupField] at hr
      subst hr
      rfl)

/-- C9: when the body lacks the `stationlist` top-level key entirely, both
normalizer entry points fail with the attribute error from looking up
`station` on the absent (`None`) result, rather than returning an empty
`StationList`. -/
theorem c9_missing_stationlist_fails (t : Transport) (e₁ e₂ : String)
    (fs : List (String × JValue))
    (hx : t.call_api_xml e₁ = .ok (.obj fs))
    (hj : t.call_api_json e₂ = .ok (.obj fs))
    (habs : lookupField fs "stationlist" = none) :
    _handle_url_action_xml t e₁ = .error .attributeError ∧
    _handle_url_action_json t e₂ = .error .attributeError := by
  constructor <;>
    simp [_handle_url_action_xml, _handle_url_action_json, hx, hj, dictGet, habs,
      Bind.bind, Except.bind]

/-- Witness for C9: the body `{}` (no `stationlist` key) makes both entry
points fail. -/
theorem c9_witness :
    _handle_url_action_xml (constTransport "T" (.obj [])) "E" = .error .attributeError ∧
    _handle_url_action_json (constTransport "T" (.obj [])) "E" = .error .attributeError :=
  c9_missing_stationlist_fails (constTransport "T" (.obj [])) "E" "E" [] rfl rfl rfl

/-- C10: every `StationList` either normalizer entry point returns — on any
path, for any transport and any body — carries the transport collaborator's
process-wide tunein value; no response content changes the tunein field. -/
theorem c10_tunein_always_configured (t : Transport) (e₁ e₂ : String)
    (sl₁ sl₂ : StationList) :
    (_handle_url_action_xml t e₁ = .ok sl₁ → sl₁.tunein = t.tuneins) ∧
    (_handle_url_action_json t e₂ = .ok sl₂ → sl₂.tunein = t.tuneins) := by
  constructor
  · intro h
    cases hc : t.call_api_xml e₁ with
    | error err =>
      rw [show _handle_url_action_xml t e₁
          = Except.error err by unfold _handle_url_action_xml; rw [hc]; rfl] at h
      cases h
    | ok resp =>
      exact normalizeWith_tunein station_xml_strip t.tuneins resp sl₁
        ((_handle_url_action_xml_norm t e₁ resp hc) ▸ h)
  · intro h
    cases hc : t.call_api_json e₂ with
    | error err =>
      rw [show _handle_url_action_json t e₂
          = Except.error err by unfold _handle_url_action_json; rw [hc]; rfl] at h
      cases h
    | ok resp =>
      exact normalizeWith_tunein station_json_strip t.tuneins resp sl₂
        ((_handle_url_action_json_norm t e₂ resp hc) ▸ h)

/-- Witness for C10: applying the invariant to the concrete empty-collection
scenario, whose result `StationList` indeed carries the configured tunein
value. -/
theorem c10_witness :
    (StationList.mk "T" []).tunein
      = (constTransport "T" (.obj [("stationlist", .obj [])])).tuneins :=
  (c10_tunein_always_configured (constTransport "T" (.obj [("stationlist", .obj [])]))
    "E" "E" (StationList.mk "T" []) (StationList.mk "T" [])).1 rfl

end ShoutcastApi
